/-
Verification of the DLPC350 control library (dlpc350.py) against its
natural-language specification.

The Python class `DLPC350` is shallowly embedded as explicit state passing
over the structure `Dlp`:
  * `seqN` is the session sequence counter (`self.seqN`, initialised to 1);
  * `responses` models the transport: the queued responses that successive
    `self.dlp_hid.read(...)` calls will return, in order;
  * `writes` is the log of packets passed to `self.dlp_hid.write(...)`;
  * `ledRed`, `ledGreen`, `ledBlue` are the LED entries of the internal
    status snapshot dictionary (`self.status`).

Python byte masks `& 0xFF` are written as `% 256` (and similarly for the
other masks); machine integers are `Nat`/`Int`.  Fallible steps (list
indexing, raising `SettingsError`, reading from an exhausted transport)
return `Except Err`; every operation also returns the post-state, so a
raised error leaves the caller with the state at the moment of the raise,
exactly as a Python exception leaves the mutated object behind.
Python float literals in the LED-current guard are embedded as the exact
rationals they denote.
-/
import Mathlib

namespace DLPC350

/-- Errors a session operation can raise: `SettingsError` (the library's
configuration error), a Python `IndexError` from list indexing, and a
transport read finding no queued response. -/
inductive Err where
  | settings : String → Err
  | index : Err
  | transport : Err
deriving Repr, DecidableEq

/-- The mutable state of a `DLPC350` object together with its transport:
sequence counter, queued transport responses, log of written packets, and
the LED entries of the status snapshot. -/
structure Dlp where
  seqN : Nat
  responses : List (List Nat)
  writes : List (List Nat)
  ledRed : Int
  ledGreen : Int
  ledBlue : Int
deriving Repr, DecidableEq

/-- A fresh session (`__init__`: `self.seqN = 0x01`, empty status) whose
transport will answer successive reads with the given responses. -/
def mkDlp (rs : List (List Nat)) : Dlp :=
  { seqN := 1, responses := rs, writes := [], ledRed := 0, ledGreen := 0, ledBlue := 0 }

/-- `self.dlp_hid.write(pkt)`: appends the packet to the write log. -/
def hidWrite (st : Dlp) (pkt : List Nat) : Dlp :=
  { st with writes := st.writes ++ [pkt] }

/-- `self.dlp_hid.read(maxLength)`: pops the next queued transport
response; `none` when the transport has nothing left to answer. -/
def hidRead (st : Dlp) (_maxLength : Nat) : Option (List Nat × Dlp) :=
  match st.responses with
  | [] => none
  | r :: rest => some (r, { st with responses := rest })

/-- `_int2bytesLSB_`: `list(reversed([(n >> i & 0xff) for i in (24, 16, 8, 0)]))`. -/
def int2bytesLSB (n : Nat) : List Nat :=
  [(n >>> 24) % 256, (n >>> 16) % 256, (n >>> 8) % 256, n % 256].reverse

/-- `_bytes2intLSB_`: `r |= b[i] << (i * 8)` for `i in (0, 1, 2, 3)`.
It indexes `b[0] .. b[3]`, so a list shorter than 4 raises `IndexError`
(modelled as `none`). -/
def bytes2intLSB (b : List Nat) : Option Nat :=
  match b[0]?, b[1]?, b[2]?, b[3]? with
  | some b0, some b1, some b2, some b3 =>
      some (0 ||| b0 ||| (b1 <<< 8) ||| (b2 <<< 16) ||| (b3 <<< 24))
  | _, _, _, _ => none

/-- `buildPacket(cmd2, cmd3, data, readonly, reply, seq)`: returns the wire
packet and the updated session state.  Byte 0 is the report id 0, byte 1
the flags (`readonly << 7 | reply << 6`), byte 2 the sequence number
(0 when `seq == 0`, else `self.seqN & 0xFF` with the counter then
incremented), bytes 3-4 the little-endian `2 + len(data)`, byte 5 `cmd3`,
byte 6 `cmd2`, then the payload. -/
def buildPacket (st : Dlp) (cmd2 cmd3 : Nat) (data : List Nat)
    (readonly reply seq : Nat) : List Nat × Dlp :=
  let reportID := 0
  let flagsByte := 0 ||| (readonly <<< 7) ||| (reply <<< 6)
  let (sequenceNumber, st1) :=
    if seq = 0 then (0, st)
    else (st.seqN % 256, { st with seqN := st.seqN + 1 })
  let packetLengthLSB := (2 + data.length) % 256
  let packetLengthMSB := (2 + data.length) >>> 8
  ([reportID, flagsByte, sequenceNumber, packetLengthLSB, packetLengthMSB,
      cmd3, cmd2] ++ data, st1)

/-- `getImageLoadTiming(startingIndex, imageNumber)` (CMD2 0x1A, CMD3 0x3A):
write the query, read an 8-byte response `d`, and return
`_bytes2intLSB_(d[4:7]) // 18667`. -/
def getImageLoadTiming (st : Dlp) (startingIndex imageNumber : Nat) :
    Except Err Nat × Dlp :=
  let (pkt, st1) := buildPacket st 0x1A 0x3A [startingIndex, imageNumber] 0 1 0
  let st2 := hidWrite st1 pkt
  match hidRead st2 8 with
  | none => (.error .transport, st2)
  | some (d, st3) =>
      match bytes2intLSB ((d.drop 4).take 3) with
      | none => (.error .index, st3)
      | some v => (.ok (v / 18667), st3)

/-- `startValidation()` (CMD2 0x1A, CMD3 0x1A): one fire-and-forget write,
payload `[0x00]`, no read; returns 1. -/
def startValidation (st : Dlp) : Nat × Dlp :=
  let (pkt, st1) := buildPacket st 0x1A 0x1A [0x00] 0 0 0
  (1, hidWrite st1 pkt)

/-- `getValidationData()` (CMD2 0x1A, CMD3 0x1A): write the read-only
query, read a 5-byte response `d`, return `d[4]`. -/
def getValidationData (st : Dlp) : Except Err Nat × Dlp :=
  let (pkt, st1) := buildPacket st 0x1A 0x1A [] 1 1 0
  let st2 := hidWrite st1 pkt
  match hidRead st2 5 with
  | none => (.error .transport, st2)
  | some (d, st3) =>
      match d[4]? with
      | none => (.error .index, st3)
      | some v => (.ok v, st3)

/-- The polling loop of `validateSequence`: `while (d >> 7) == 1: d =
getValidationData()`.  The Python loop is unbounded; on a finite queued
response stream it either stops at the first datum whose top bit is clear
or fails when the stream is exhausted, so running it with any fuel larger
than the stream length is exact (the fuel-0 case is unreachable). -/
def validateLoopF : Nat → Dlp → Except Err Nat × Dlp
  | 0, st => (.error .transport, st)
  | fuel + 1, st =>
      match getValidationData st with
      | (.error e, st1) => (.error e, st1)
      | (.ok d, st1) =>
          if d >>> 7 = 1 then validateLoopF fuel st1 else (.ok d, st1)

/-- `validateSequence()`: send the start-validation command, then poll
`getValidationData` until the returned byte's bit 7 is no longer set, and
return that byte. -/
def validateSequence (st : Dlp) : Except Err Nat × Dlp :=
  let st1 := (startValidation st).2
  validateLoopF (st1.responses.length + 1) st1

/-- `setPatternTriggerMode(mode)` (CMD2 0x1A, CMD3 0x23): returns -1 with
no I/O when `mode > 4`, else one acknowledged write with payload `[mode]`. -/
def setPatternTriggerMode (st : Dlp) (mode : Nat) : Int × Dlp :=
  if 4 < mode then (-1, st)
  else
    let (pkt, st1) := buildPacket st 0x1A 0x23 [mode] 0 0 1
    (1, hidWrite st1 pkt)

/-- `setPatternInputSource(source)` (CMD2 0x1A, CMD3 0x22): returns -1 with
no I/O when `source not in [0b00, 0b11]`, else one acknowledged write with
payload `[source]`. -/
def setPatternInputSource (st : Dlp) (source : Nat) : Int × Dlp :=
  if source ∉ ([0b00, 0b11] : List Nat) then (-1, st)
  else
    let (pkt, st1) := buildPacket st 0x1A 0x22 [source] 0 0 1
    (1, hidWrite st1 pkt)

/-- `openMailbox(function)` (CMD2 0x1A, CMD3 0x33): returns -1 with no I/O
when `function not in [1, 2, 3]`, else one acknowledged write with payload
`[function & 0x03]`. -/
def openMailbox (st : Dlp) (function : Nat) : Int × Dlp :=
  if function ∉ ([1, 2, 3] : List Nat) then (-1, st)
  else
    let (pkt, st1) := buildPacket st 0x1A 0x33 [function % 4] 0 0 1
    (1, hidWrite st1 pkt)

/-- `closeMailboxes()` (CMD2 0x1A, CMD3 0x33): one acknowledged write with
payload `[0x00]`. -/
def closeMailboxes (st : Dlp) : Nat × Dlp :=
  let (pkt, st1) := buildPacket st 0x1A 0x33 [0x00] 0 0 1
  (1, hidWrite st1 pkt)

/-- `setLUTOffsetPointer(offset)` (CMD2 0x1A, CMD3 0x32): one acknowledged
write with payload `[offset & 0xFF]`. -/
def setLUTOffsetPointer (st : Dlp) (offset : Nat) : Nat × Dlp :=
  let (pkt, st1) := buildPacket st 0x1A 0x32 [offset % 256] 0 0 1
  (1, hidWrite st1 pkt)

/-- `setPatternExposureTime(exposureTime, longerFramePeriod)` (CMD2 0x1A,
CMD3 0x29): frame period is `exposureTime + 230` when the longer-frame
option is 1, else `exposureTime`; payload is the two 4-byte little-endian
values; one acknowledged write. -/
def setPatternExposureTime (st : Dlp) (exposureTime longerFramePeriod : Nat) :
    Nat × Dlp :=
  let exposureBytes := int2bytesLSB exposureTime
  let framePeriod := if longerFramePeriod = 1 then exposureTime + 230 else exposureTime
  let framePeriodBytes := int2bytesLSB framePeriod
  let (pkt, st1) := buildPacket st 0x1A 0x29 (exposureBytes ++ framePeriodBytes) 0 0 1
  (1, hidWrite st1 pkt)

/-- `LUTControl(lutEntries, repeat, nrOfPattern, flashImages)` (CMD2 0x1A,
CMD3 0x31): payload `[(lutEntries-1) & 0x7F, repeat & 0x01, nrOfPattern-1,
(flashImages-1) & 0x3F]`; one acknowledged write. -/
def LUTControl (st : Dlp) (lutEntries rep nrOfPattern flashImages : Nat) :
    Nat × Dlp :=
  let (pkt, st1) := buildPacket st 0x1A 0x31
      [(lutEntries - 1) % 128, rep % 2, nrOfPattern - 1, (flashImages - 1) % 64]
      0 0 1
  (1, hidWrite st1 pkt)

/-- `fillPatternData(data)` (CMD2 0x1A, CMD3 0x34): raw LUT payload, one
acknowledged write, no control performed on the input array. -/
def fillPatternData (st : Dlp) (data : List Nat) : Nat × Dlp :=
  let (pkt, st1) := buildPacket st 0x1A 0x34 data 0 0 1
  (1, hidWrite st1 pkt)

/-- `setFlashImageIndexes(indexes)` (CMD2 0x1A, CMD3 0x34): raw index
bytes, one acknowledged write. -/
def setFlashImageIndexes (st : Dlp) (indexes : List Nat) : Nat × Dlp :=
  let (pkt, st1) := buildPacket st 0x1A 0x34 indexes 0 0 1
  (1, hidWrite st1 pkt)

/-- `getLEDCurrent()` (CMD2 0x0B, CMD3 0x01): write the read-only query,
read a 7-byte response `d`, store `255 - d[4]`, `255 - d[5]`, `255 - d[6]`
into the status snapshot, and return the slice `d[4:6]`. -/
def getLEDCurrent (st : Dlp) : Except Err (List Nat) × Dlp :=
  let (pkt, st1) := buildPacket st 0x0B 0x01 [] 1 1 0
  let st2 := hidWrite st1 pkt
  match hidRead st2 7 with
  | none => (.error .transport, st2)
  | some (d, st3) =>
      match (d[4]? : Option Nat), (d[5]? : Option Nat), (d[6]? : Option Nat) with
      | some r, some g, some b =>
          (.ok ((d.drop 4).take 2),
           { st3 with ledRed := 255 - (r : Int), ledGreen := 255 - (g : Int),
                      ledBlue := 255 - (b : Int) })
      | _, _, _ => (.error .index, st3)

/-- `checkLedCurrent(r, g, b, lcrafterChk)`: return 0 (false) when any
requested value exceeds 255, or when the strict-mode flag is set and the
estimated total current `0.0069*r + 0.0071*g + 0.0063*b + 0.9611` exceeds
4.2; else return 1 (true).  The method performs no transport I/O, so the
state is returned unchanged.  The Python float arithmetic is embedded as
exact rational arithmetic. -/
def checkLedCurrent (st : Dlp) (r g b : Nat) (lcrafterChk : Bool) : Bool × Dlp :=
  if 255 < r ∨ 255 < g ∨ 255 < b then (false, st)
  else if lcrafterChk ∧
      (4.2 : ℚ) < (r : ℚ) * 0.0069 + (g : ℚ) * 0.0071 + (b : ℚ) * 0.0063 + 0.9611 then
    (false, st)
  else (true, st)

/-- `setLEDCurrent(r, g, b)` (CMD2 0x0B, CMD3 0x01): when
`checkLedCurrent(r, g, b)` (strict mode on by default) accepts, perform one
fire-and-forget write with payload `[255 - r, 255 - g, 255 - b]`;
otherwise do nothing.  Either way return 1. -/
def setLEDCurrent (st : Dlp) (r g b : Nat) : Nat × Dlp :=
  if (checkLedCurrent st r g b true).1 then
    let currents := [255 - r, 255 - g, 255 - b]
    let (pkt, st1) := buildPacket (checkLedCurrent st r g b true).2 0x0B 0x01 currents 0 0 0
    (1, hidWrite st1 pkt)
  else (1, (checkLedCurrent st r g b true).2)

/-- `sendPatternSequence(sequence, flashIndexes, displayTime, triggerMode,
repeat)`: validate the two list shapes (raising `SettingsError` before any
I/O on failure), then run the fixed twelve-command upload.  The Python
code ignores the return values of the individual commands. -/
def sendPatternSequence (st : Dlp) (sequence flashIndexes : List Nat)
    (displayTime triggerMode rep : Nat) : Except Err Unit × Dlp :=
  let nrOfLUTEntries := sequence.length / 3
  let nrOfFlashImages := flashIndexes.length
  if sequence.length % 3 ≠ 0 ∨ nrOfLUTEntries = 0 then
    (.error (.settings "Invalid pattern sequence!"), st)
  else if nrOfFlashImages = 0 ∨ nrOfLUTEntries < nrOfFlashImages then
    (.error (.settings "Invalid number of Flash images!"), st)
  else
    let st := (setPatternInputSource st 3).2
    let st := (LUTControl st nrOfLUTEntries rep nrOfLUTEntries nrOfFlashImages).2
    let st := (setPatternExposureTime st displayTime 0).2
    let st := (setPatternTriggerMode st triggerMode).2
    let st := (openMailbox st 2).2
    let st := (setLUTOffsetPointer st 0).2
    let st := (fillPatternData st sequence).2
    let st := (closeMailboxes st).2
    let st := (openMailbox st 1).2
    let st := (setLUTOffsetPointer st 0).2
    let st := (setFlashImageIndexes st flashIndexes).2
    let st := (closeMailboxes st).2
    (.ok (), st)

/-- A run of `n` consecutive `buildPacket` calls with the sequence flag
set, returning the emitted sequence-number bytes (byte 2 of each packet)
and the final state. -/
def seqBytesRun (cmd2 cmd3 : Nat) (data : List Nat) (readonly reply : Nat) :
    Nat → Dlp → List Nat × Dlp
  | 0, st => ([], st)
  | n + 1, st =>
      let (pkt, st1) := buildPacket st cmd2 cmd3 data readonly reply 1
      let (rest, st2) := seqBytesRun cmd2 cmd3 data readonly reply n st1
      (pkt.getD 2 0 :: rest, st2)

/-! ### Helper lemmas about the individual commands -/

/-- `checkLedCurrent` never touches the session state or transport. -/
theorem checkLedCurrent_state (st : Dlp) (r g b : Nat) (c : Bool) :
    (checkLedCurrent st r g b c).2 = st := by
  unfold checkLedCurrent
  split
  · rfl
  · split
    · rfl
    · rfl

/-- What one acknowledged `setPatternInputSource` call at a valid source does. -/
theorem setPatternInputSource_ok (st : Dlp) (src : Nat) (h : src = 0 ∨ src = 3) :
    setPatternInputSource st src =
      (1, { st with
              seqN := st.seqN + 1,
              writes := st.writes ++ [[0, 0, st.seqN % 256, 3, 0, 0x22, 0x1A, src]] }) := by
  have hmem : src ∈ ([0, 3] : List Nat) := by
    rcases h with h | h <;> simp [h]
  simp [setPatternInputSource, buildPacket, hidWrite, hmem]

/-- What one acknowledged `LUTControl` call does. -/
theorem LUTControl_ok (st : Dlp) (a b c d : Nat) :
    LUTControl st a b c d =
      (1, { st with
              seqN := st.seqN + 1,
              writes := st.writes ++
              [[0, 0, st.seqN % 256, 6, 0, 0x31, 0x1A,
                (a - 1) % 128, b % 2, c - 1, (d - 1) % 64]] }) := by
  simp [LUTControl, buildPacket, hidWrite]

/-- What one acknowledged `setPatternExposureTime` call (equal frame
period) does. -/
theorem setPatternExposureTime_ok (st : Dlp) (t : Nat) :
    setPatternExposureTime st t 0 =
      (1, { st with
              seqN := st.seqN + 1,
              writes := st.writes ++
              [[0, 0, st.seqN % 256, 10, 0, 0x29, 0x1A,
                t % 256, (t >>> 8) % 256, (t >>> 16) % 256, (t >>> 24) % 256,
                t % 256, (t >>> 8) % 256, (t >>> 16) % 256, (t >>> 24) % 256]] }) := by
  simp [setPatternExposureTime, int2bytesLSB, buildPacket, hidWrite]

/-- What one acknowledged `setPatternTriggerMode` call in range does. -/
theorem setPatternTriggerMode_ok (st : Dlp) (m : Nat) (h : m ≤ 4) :
    setPatternTriggerMode st m =
      (1, { st with
              seqN := st.seqN + 1,
              writes := st.writes ++ [[0, 0, st.seqN % 256, 3, 0, 0x23, 0x1A, m]] }) := by
  simp [setPatternTriggerMode, buildPacket, hidWrite, Nat.not_lt.mpr h]

/-- What one acknowledged `openMailbox` call at a valid function does. -/
theorem openMailbox_ok (st : Dlp) (f : Nat) (h : f = 1 ∨ f = 2 ∨ f = 3) :
    openMailbox st f =
      (1, { st with
              seqN := st.seqN + 1,
              writes := st.writes ++ [[0, 0, st.seqN % 256, 3, 0, 0x33, 0x1A, f % 4]] }) := by
  have hmem : f ∈ ([1, 2, 3] : List Nat) := by
    rcases h with h | h | h <;> simp [h]
  simp [openMailbox, buildPacket, hidWrite, hmem]

/-- What one `closeMailboxes` call does. -/
theorem closeMailboxes_ok (st : Dlp) :
    closeMailboxes st =
      (1, { st with
              seqN := st.seqN + 1,
              writes := st.writes ++ [[0, 0, st.seqN % 256, 3, 0, 0x33, 0x1A, 0]] }) := by
  simp [closeMailboxes, buildPacket, hidWrite]

/-- What one `setLUTOffsetPointer` call does. -/
theorem setLUTOffsetPointer_ok (st : Dlp) (o : Nat) :
    setLUTOffsetPointer st o =
      (1, { st with
              seqN := st.seqN + 1,
              writes := st.writes ++ [[0, 0, st.seqN % 256, 3, 0, 0x32, 0x1A, o % 256]] }) := by
  simp [setLUTOffsetPointer, buildPacket, hidWrite]

/-- What one `fillPatternData` call does. -/
theorem fillPatternData_ok (st : Dlp) (data : List Nat) :
    fillPatternData st data =
      (1, { st with
              seqN := st.seqN + 1,
              writes := st.writes ++
              [[0, 0, st.seqN % 256, (2 + data.length) % 256,
                (2 + data.length) >>> 8, 0x34, 0x1A] ++ data] }) := by
  simp [fillPatternData, buildPacket, hidWrite]

/-- What one `setFlashImageIndexes` call does. -/
theorem setFlashImageIndexes_ok (st : Dlp) (idx : List Nat) :
    setFlashImageIndexes st idx =
      (1, { st with
              seqN := st.seqN + 1,
              writes := st.writes ++
              [[0, 0, st.seqN % 256, (2 + idx.length) % 256,
                (2 + idx.length) >>> 8, 0x34, 0x1A] ++ idx] }) := by
  simp [setFlashImageIndexes, buildPacket, hidWrite]

/-! ### Claim theorems -/

/-- C1: with a transport response whose data bytes at offsets 4-6 are
`[0x00, 0x49, 0x02]`, `getImageLoadTiming` does NOT return
`0x024900 // 18667 = 8`: `_bytes2intLSB_` indexes `b[3]` of the 3-element
slice `d[4:7]`, raising `IndexError`.  Decoding would require a fourth
byte, as the last conjunct shows. -/
theorem getImageLoadTiming_crashes_on_slice :
    getImageLoadTiming (mkDlp [[0x00, 0x00, 0x00, 0x00, 0x00, 0x49, 0x02, 0x00]]) 0 1 =
      (.error .index,
        { mkDlp [] with writes := [[0, 64, 0, 4, 0, 0x3A, 0x1A, 0, 1]] }) ∧
    bytes2intLSB [0x00, 0x49, 0x02] = none ∧
    Option.map (fun n => n / 18667) (bytes2intLSB [0x00, 0x49, 0x02, 0x00]) = some 8 := by
  refine ⟨rfl, rfl, rfl⟩

/-- C8: `checkLedCurrent` in strict mode, on byte-range inputs, rejects
exactly when the estimated total current
`0.0069*r + 0.0071*g + 0.0063*b + 0.9611` exceeds 4.2, and never touches
the session state or transport. -/
theorem checkLedCurrent_strict_threshold (st : Dlp) (r g b : Nat)
    (hr : r ≤ 255) (hg : g ≤ 255) (hb : b ≤ 255) :
    ((checkLedCurrent st r g b true).1 = false ↔
      (4.2 : ℚ) < (r : ℚ) * 0.0069 + (g : ℚ) * 0.0071 + (b : ℚ) * 0.0063 + 0.9611) ∧
    (checkLedCurrent st r g b true).2 = st := by
  refine ⟨?_, checkLedCurrent_state st r g b true⟩
  unfold checkLedCurrent
  rw [if_neg (by omega)]
  by_cases h : (4.2 : ℚ) < (r : ℚ) * 0.0069 + (g : ℚ) * 0.0071 + (b : ℚ) * 0.0063 + 0.9611
  · rw [if_pos ⟨rfl, h⟩]
    simpa using h
  · rw [if_neg (fun hc => h hc.2)]
    simpa using h

/-- C8 witness: `checkLedCurrent(255, 255, 255)` in strict mode fails
(total 6.1376 A > 4.2 A), `checkLedCurrent(0, 0, 0)` succeeds
(total 0.9611 A), and neither call changes the session state. -/
theorem checkLedCurrent_strict_threshold_witness :
    (checkLedCurrent (mkDlp []) 255 255 255 true).1 = false ∧
    (checkLedCurrent (mkDlp []) 0 0 0 true).1 = true ∧
    (checkLedCurrent (mkDlp []) 255 255 255 true).2 = mkDlp [] := by
  have h255 := checkLedCurrent_strict_threshold (mkDlp []) 255 255 255
    (by norm_num) (by norm_num) (by norm_num)
  have h0 := checkLedCurrent_strict_threshold (mkDlp []) 0 0 0
    (by norm_num) (by norm_num) (by norm_num)
  refine ⟨h255.1.mpr (by norm_num), ?_, h255.2⟩
  cases hval : (checkLedCurrent (mkDlp []) 0 0 0 true).1
  · exfalso
    have := h0.1.mp hval
    norm_num at this
  · rfl

/-- C2 counterexample: the claim says a guard-rejected triple makes
`setLEDCurrent` raise a `ConfigurationError`; in fact for the rejected
triple (255, 255, 255) the call performs zero transport writes and
returns the plain success value 1 with the session state untouched — no
error of any kind is raised. -/
theorem setLEDCurrent_rejection_raises_nothing :
    (checkLedCurrent (mkDlp []) 255 255 255 true).1 = false ∧
    setLEDCurrent (mkDlp []) 255 255 255 = (1, mkDlp []) := by
  have hchk : (checkLedCurrent (mkDlp []) 255 255 255 true).1 = false := by
    norm_num [checkLedCurrent]
  refine ⟨hchk, ?_⟩
  simp [setLEDCurrent, hchk, checkLedCurrent_state]

/-- C2 amended: a triple rejected by `checkLedCurrent` makes
`setLEDCurrent` perform zero transport writes and return 1 normally (no
error is raised); an accepted triple makes it perform exactly one
fire-and-forget write whose three payload bytes are `255 - r`, `255 - g`,
`255 - b`, also returning 1. -/
theorem setLEDCurrent_guard_behaviour (st : Dlp) (r g b : Nat) :
    ((checkLedCurrent st r g b true).1 = false → setLEDCurrent st r g b = (1, st)) ∧
    ((checkLedCurrent st r g b true).1 = true →
      setLEDCurrent st r g b =
        (1, { st with writes := st.writes ++
              [[0, 0, 0, 5, 0, 0x01, 0x0B, 255 - r, 255 - g, 255 - b]] })) := by
  constructor
  · intro h
    simp [setLEDCurrent, h, checkLedCurrent_state]
  · intro h
    simp [setLEDCurrent, h, checkLedCurrent_state, buildPacket, hidWrite]

/-- C2 witness: the rejected triple (255, 255, 255) produces no write and
the accepted default triple (151, 120, 125) produces exactly the one
inverted-payload write. -/
theorem setLEDCurrent_guard_behaviour_witness :
    setLEDCurrent (mkDlp []) 255 255 255 = (1, mkDlp []) ∧
    setLEDCurrent (mkDlp []) 151 120 125 =
      (1, { mkDlp [] with writes := [[0, 0, 0, 5, 0, 0x01, 0x0B, 104, 135, 130]] }) := by
  constructor
  · exact (setLEDCurrent_guard_behaviour (mkDlp []) 255 255 255).1
      (by norm_num [checkLedCurrent])
  · have h := (setLEDCurrent_guard_behaviour (mkDlp []) 151 120 125).2
      (by norm_num [checkLedCurrent])
    simpa using h

/-- C10: for a 7-byte transport response `d`, `getLEDCurrent` stores the
inverted values `255 - d[4]`, `255 - d[5]`, `255 - d[6]` in the LED
status snapshot, but returns the raw two-element slice `d[4:6]` — the
returned bytes are not inverted and the blue byte `d[6]` is not returned. -/
theorem getLEDCurrent_raw_slice (st : Dlp) (b0 b1 b2 b3 b4 b5 b6 : Nat)
    (rest : List (List Nat))
    (h : st.responses = [b0, b1, b2, b3, b4, b5, b6] :: rest) :
    getLEDCurrent st =
      (.ok [b4, b5],
        { st with
            responses := rest,
            writes := st.writes ++ [[0, 192, 0, 2, 0, 0x01, 0x0B]],
            ledRed := 255 - (b4 : Int),
            ledGreen := 255 - (b5 : Int),
            ledBlue := 255 - (b6 : Int) }) := by
  simp [getLEDCurrent, buildPacket, hidWrite, hidRead, h]

/-- C10 witness: response bytes 10, 20, 30 at offsets 4-6 are stored
inverted (245, 235, 225) while the call returns the raw `[10, 20]`. -/
theorem getLEDCurrent_raw_slice_witness :
    getLEDCurrent (mkDlp [[9, 9, 9, 9, 10, 20, 30]]) =
      (.ok [10, 20],
        { mkDlp [] with
            writes := [[0, 192, 0, 2, 0, 0x01, 0x0B]],
            ledRed := 245, ledGreen := 235, ledBlue := 225 }) := by
  have h := getLEDCurrent_raw_slice (mkDlp [[9, 9, 9, 9, 10, 20, 30]])
    9 9 9 9 10 20 30 [] rfl
  simpa using h

/-- C9: `setPatternTriggerMode` with mode > 4, `setPatternInputSource`
with source outside {0, 3}, and `openMailbox` with function outside
{1, 2, 3} each return the error value -1 with zero transport writes and
the sequence counter (indeed the whole state) unchanged; for in-range
arguments each performs exactly one write carrying the current sequence
number and increments the counter. -/
theorem guarded_commands_preflight (st : Dlp) (mode src fn : Nat) :
    (4 < mode → setPatternTriggerMode st mode = (-1, st)) ∧
    (mode ≤ 4 →
      setPatternTriggerMode st mode =
        (1, { st with
                seqN := st.seqN + 1,
                writes := st.writes ++ [[0, 0, st.seqN % 256, 3, 0, 0x23, 0x1A, mode]] })) ∧
    (src ≠ 0 → src ≠ 3 → setPatternInputSource st src = (-1, st)) ∧
    (src = 0 ∨ src = 3 →
      setPatternInputSource st src =
        (1, { st with
                seqN := st.seqN + 1,
                writes := st.writes ++ [[0, 0, st.seqN % 256, 3, 0, 0x22, 0x1A, src]] })) ∧
    (fn ≠ 1 → fn ≠ 2 → fn ≠ 3 → openMailbox st fn = (-1, st)) ∧
    (fn = 1 ∨ fn = 2 ∨ fn = 3 →
      openMailbox st fn =
        (1, { st with
                seqN := st.seqN + 1,
                writes := st.writes ++ [[0, 0, st.seqN % 256, 3, 0, 0x33, 0x1A, fn % 4]] })) := by
  refine ⟨?_, ?_, ?_, ?_, ?_, ?_⟩
  · intro h
    simp [setPatternTriggerMode, h]
  · exact fun h => setPatternTriggerMode_ok st mode h
  · intro h0 h3
    simp [setPatternInputSource, h0, h3]
  · exact fun h => setPatternInputSource_ok st src h
  · intro h1 h2 h3
    simp [openMailbox, h1, h2, h3]
  · exact fun h => openMailbox_ok st fn h

/-- C9 witness: trigger mode 5, input source 1 and mailbox function 4 are
rejected with no write and no state change; trigger mode 4, input source 3
and mailbox function 1 each produce exactly one acknowledged write. -/
theorem guarded_commands_preflight_witness :
    setPatternTriggerMode (mkDlp []) 5 = (-1, mkDlp []) ∧
    setPatternTriggerMode (mkDlp []) 4 =
      (1, { mkDlp [] with seqN := 2, writes := [[0, 0, 1, 3, 0, 0x23, 0x1A, 4]] }) ∧
    setPatternInputSource (mkDlp []) 1 = (-1, mkDlp []) ∧
    setPatternInputSource (mkDlp []) 3 =
      (1, { mkDlp [] with seqN := 2, writes := [[0, 0, 1, 3, 0, 0x22, 0x1A, 3]] }) ∧
    openMailbox (mkDlp []) 4 = (-1, mkDlp []) ∧
    openMailbox (mkDlp []) 1 =
      (1, { mkDlp [] with seqN := 2, writes := [[0, 0, 1, 3, 0, 0x33, 0x1A, 1]] }) := by
  have h := guarded_commands_preflight (mkDlp []) 5 1 4
  have h' := guarded_commands_preflight (mkDlp []) 4 3 1
  refine ⟨h.1 (by decide), ?_, h.2.2.1 (by decide) (by decide), ?_,
    h.2.2.2.2.1 (by decide) (by decide) (by decide), ?_⟩
  · have := h'.2.1 (by decide)
    simpa using this
  · have := h'.2.2.2.1 (Or.inr rfl)
    simpa using this
  · have := h'.2.2.2.2.2 (Or.inl rfl)
    simpa using this

/-- C5: the packet emitted by `buildPacket` has byte 0 = 0, byte 1
carrying `readonly` in bit 7 and `reply` in bit 6, bytes 3-4 the
little-endian `payload length + 2`, byte 5 = cmd3, byte 6 = cmd2 and the
payload from byte 7 on; reading those positions back recovers `cmd2`,
`cmd3`, the payload and both flag bits unchanged. -/
theorem buildPacket_layout_roundtrip (st : Dlp) (cmd2 cmd3 : Nat)
    (data : List Nat) (readonly reply seq : Nat) (pkt : List Nat)
    (hro : readonly ≤ 1) (hrep : reply ≤ 1)
    (hpkt : pkt = (buildPacket st cmd2 cmd3 data readonly reply seq).1) :
    pkt[0]? = some 0 ∧
    pkt[1]? = some (readonly <<< 7 ||| reply <<< 6) ∧
    pkt[3]? = some ((2 + data.length) % 256) ∧
    pkt[4]? = some ((2 + data.length) >>> 8) ∧
    pkt.getD 3 0 + 256 * pkt.getD 4 0 = 2 + data.length ∧
    pkt[5]? = some cmd3 ∧
    pkt[6]? = some cmd2 ∧
    pkt.drop 7 = data ∧
    (pkt.getD 1 0 >>> 7) % 2 = readonly ∧
    (pkt.getD 1 0 >>> 6) % 2 = reply := by
  have hlist : pkt = [0, readonly <<< 7 ||| reply <<< 6,
      (buildPacket st cmd2 cmd3 data readonly reply seq).1.getD 2 0,
      (2 + data.length) % 256, (2 + data.length) >>> 8, cmd3, cmd2] ++ data := by
    subst hpkt
    by_cases hs : seq = 0 <;> simp [buildPacket, hs]
  have hround : (2 + data.length) % 256 + 256 * ((2 + data.length) >>> 8)
      = 2 + data.length := by
    rw [Nat.shiftRight_eq_div_pow]
    omega
  rcases Nat.le_one_iff_eq_zero_or_eq_one.mp hro with h | h <;>
    rcases Nat.le_one_iff_eq_zero_or_eq_one.mp hrep with h' | h' <;>
      subst h h' <;>
        simp [hlist, List.getD, hround]

/-- C5 witness: at a concrete read-only packet with payload `[7, 9]`, the
fixed positions recover cmd2, the payload and the readonly flag bit. -/
theorem buildPacket_layout_roundtrip_witness :
    ((buildPacket (mkDlp []) 0x1A 0x3A [7, 9] 1 0 0).1)[6]? = some 0x1A ∧
    ((buildPacket (mkDlp []) 0x1A 0x3A [7, 9] 1 0 0).1).drop 7 = [7, 9] ∧
    (((buildPacket (mkDlp []) 0x1A 0x3A [7, 9] 1 0 0).1).getD 1 0 >>> 7) % 2 = 1 := by
  have h := buildPacket_layout_roundtrip (mkDlp []) 0x1A 0x3A [7, 9] 1 0 0
    ((buildPacket (mkDlp []) 0x1A 0x3A [7, 9] 1 0 0).1) (by decide) (by decide) rfl
  exact ⟨h.2.2.2.2.2.2.1, h.2.2.2.2.2.2.2.1, h.2.2.2.2.2.2.2.2.1⟩

/-- C3: `sendPatternSequence` rejects a byte sequence that is not a
nonzero multiple of 3 in length, and a flash-index list that is empty or
longer than the LUT-entry count, with a `SettingsError` and zero
transport I/O (the state is returned untouched). -/
theorem sendPatternSequence_rejects_bad_shapes (st : Dlp)
    (sequence flashIndexes : List Nat) (displayTime triggerMode rep : Nat)
    (h : sequence.length % 3 ≠ 0 ∨ sequence.length / 3 = 0 ∨
         flashIndexes.length = 0 ∨ sequence.length / 3 < flashIndexes.length) :
    ∃ msg, sendPatternSequence st sequence flashIndexes displayTime triggerMode rep =
      (.error (.settings msg), st) := by
  unfold sendPatternSequence
  by_cases h1 : sequence.length % 3 ≠ 0 ∨ sequence.length / 3 = 0
  · rw [if_pos h1]
    exact ⟨_, rfl⟩
  · rw [if_neg h1]
    have h2 : flashIndexes.length = 0 ∨ sequence.length / 3 < flashIndexes.length := by
      tauto
    rw [if_pos h2]
    exact ⟨_, rfl⟩

/-- C3 witness: a sequence of byte-length 4 is rejected with no I/O, and
2 LUT entries (6 sequence bytes) with 3 flash indexes are rejected with
no I/O. -/
theorem sendPatternSequence_rejects_bad_shapes_witness :
    (∃ msg, sendPatternSequence (mkDlp []) [0, 0, 0, 0] [8] 100000 1 0 =
      (.error (.settings msg), mkDlp [])) ∧
    (∃ msg, sendPatternSequence (mkDlp []) [1, 2, 3, 4, 5, 6] [1, 2, 3] 100000 1 0 =
      (.error (.settings msg), mkDlp [])) :=
  ⟨sendPatternSequence_rejects_bad_shapes (mkDlp []) [0, 0, 0, 0] [8] 100000 1 0
      (by decide),
   sendPatternSequence_rejects_bad_shapes (mkDlp []) [1, 2, 3, 4, 5, 6] [1, 2, 3] 100000 1 0
      (by decide)⟩

/-- C6: starting from any counter value, `n` consecutive `buildPacket`
calls with the sequence flag set emit the sequence-number bytes
`seqN, seqN+1, ...` reduced mod 256 and advance the counter by `n`, while
a call with the sequence flag clear emits sequence byte 0 and leaves the
whole state (in particular the counter) unchanged. -/
theorem buildPacket_sequence_counter (cmd2 cmd3 : Nat) (data : List Nat)
    (readonly reply : Nat) :
    (∀ (st : Dlp) (n : Nat),
      (seqBytesRun cmd2 cmd3 data readonly reply n st).1 =
        (List.range n).map (fun k => (st.seqN + k) % 256) ∧
      (seqBytesRun cmd2 cmd3 data readonly reply n st).2 =
        { st with seqN := st.seqN + n }) ∧
    (∀ st : Dlp,
      (buildPacket st cmd2 cmd3 data readonly reply 0).1.getD 2 0 = 0 ∧
      (buildPacket st cmd2 cmd3 data readonly reply 0).2 = st) := by
  have hack : ∀ (st : Dlp),
      buildPacket st cmd2 cmd3 data readonly reply 1 =
        ([0, 0 ||| readonly <<< 7 ||| reply <<< 6, st.seqN % 256,
          (2 + data.length) % 256, (2 + data.length) >>> 8, cmd3, cmd2] ++ data,
         { st with seqN := st.seqN + 1 }) := by
    intro st
    simp [buildPacket]
  constructor
  · intro st n
    induction n generalizing st with
    | zero => simp [seqBytesRun]
    | succ n ih =>
      obtain ⟨ih1, ih2⟩ := ih { st with seqN := st.seqN + 1 }
      have harith : ∀ k, st.seqN + 1 + k = st.seqN + (k + 1) := by omega
      have harith2 : st.seqN + 1 + n = st.seqN + (n + 1) := by omega
      constructor
      · simp [seqBytesRun, hack, List.getD, ih1, List.range_succ_eq_map,
          List.map_map, Function.comp, harith]
      · simp [seqBytesRun, hack, ih2, harith2]
  · intro st
    constructor
    · simp [buildPacket, List.getD]
    · simp [buildPacket]

/-- C4: for shape-valid inputs (and an in-range trigger mode),
`sendPatternSequence` issues exactly twelve packets in the fixed order
input-source(3), LUT-control, exposure-time, trigger-mode, open-mailbox(2),
LUT-offset(0), pattern data, close-mailbox, open-mailbox(1), LUT-offset(0),
flash-image indexes, close-mailbox — with no reads and no other traffic:
the response queue is untouched and the counter advances by exactly 12. -/
theorem sendPatternSequence_twelve_commands (st : Dlp)
    (sequence flashIndexes : List Nat) (displayTime triggerMode rep : Nat)
    (h3 : sequence.length % 3 = 0) (hn : sequence.length / 3 ≠ 0)
    (hm0 : flashIndexes.length ≠ 0) (hmn : flashIndexes.length ≤ sequence.length / 3)
    (htm : triggerMode ≤ 4) :
    sendPatternSequence st sequence flashIndexes displayTime triggerMode rep =
      (.ok (), { st with
          seqN := st.seqN + 12,
          writes := st.writes ++
            [[0, 0, st.seqN % 256, 3, 0, 0x22, 0x1A, 3],
             [0, 0, (st.seqN + 1) % 256, 6, 0, 0x31, 0x1A,
               (sequence.length / 3 - 1) % 128, rep % 2, sequence.length / 3 - 1,
               (flashIndexes.length - 1) % 64],
             [0, 0, (st.seqN + 2) % 256, 10, 0, 0x29, 0x1A,
               displayTime % 256, (displayTime >>> 8) % 256,
               (displayTime >>> 16) % 256, (displayTime >>> 24) % 256,
               displayTime % 256, (displayTime >>> 8) % 256,
               (displayTime >>> 16) % 256, (displayTime >>> 24) % 256],
             [0, 0, (st.seqN + 3) % 256, 3, 0, 0x23, 0x1A, triggerMode],
             [0, 0, (st.seqN + 4) % 256, 3, 0, 0x33, 0x1A, 2],
             [0, 0, (st.seqN + 5) % 256, 3, 0, 0x32, 0x1A, 0],
             [0, 0, (st.seqN + 6) % 256, (2 + sequence.length) % 256,
               (2 + sequence.length) >>> 8, 0x34, 0x1A] ++ sequence,
             [0, 0, (st.seqN + 7) % 256, 3, 0, 0x33, 0x1A, 0],
             [0, 0, (st.seqN + 8) % 256, 3, 0, 0x33, 0x1A, 1],
             [0, 0, (st.seqN + 9) % 256, 3, 0, 0x32, 0x1A, 0],
             [0, 0, (st.seqN + 10) % 256, (2 + flashIndexes.length) % 256,
               (2 + flashIndexes.length) >>> 8, 0x34, 0x1A] ++ flashIndexes,
             [0, 0, (st.seqN + 11) % 256, 3, 0, 0x33, 0x1A, 0]] }) := by
  unfold sendPatternSequence
  rw [if_neg (by omega), if_neg (by omega)]
  simp [setPatternInputSource_ok, LUTControl_ok, setPatternExposureTime_ok,
    setPatternTriggerMode_ok, openMailbox_ok, setLUTOffsetPointer_ok,
    fillPatternData_ok, closeMailboxes_ok, setFlashImageIndexes_ok, htm,
    Nat.add_assoc]

/-- C4 witness: the default call (one LUT entry, one flash index, 100000 µs
exposure, trigger mode 1) emits exactly the twelve expected packets with
sequence bytes 1 through 12. -/
theorem sendPatternSequence_twelve_commands_witness :
    sendPatternSequence (mkDlp []) [0x00, 0x21, 0x06] [0x08] 100000 1 0 =
      (.ok (), { mkDlp [] with
          seqN := 13,
          writes := [[0, 0, 1, 3, 0, 0x22, 0x1A, 3],
            [0, 0, 2, 6, 0, 0x31, 0x1A, 0, 0, 0, 0],
            [0, 0, 3, 10, 0, 0x29, 0x1A, 160, 134, 1, 0, 160, 134, 1, 0],
            [0, 0, 4, 3, 0, 0x23, 0x1A, 1],
            [0, 0, 5, 3, 0, 0x33, 0x1A, 2],
            [0, 0, 6, 3, 0, 0x32, 0x1A, 0],
            [0, 0, 7, 5, 0, 0x34, 0x1A, 0x00, 0x21, 0x06],
            [0, 0, 8, 3, 0, 0x33, 0x1A, 0],
            [0, 0, 9, 3, 0, 0x33, 0x1A, 1],
            [0, 0, 10, 3, 0, 0x32, 0x1A, 0],
            [0, 0, 11, 3, 0, 0x34, 0x1A, 0x08],
            [0, 0, 12, 3, 0, 0x33, 0x1A, 0]] }) := by
  have h := sendPatternSequence_twelve_commands (mkDlp []) [0x00, 0x21, 0x06] [0x08]
    100000 1 0 (by decide) (by decide) (by decide) (by decide) (by decide)
  simpa using h

/-- `startValidation` performs exactly its one fire-and-forget write. -/
theorem startValidation_ok (st : Dlp) :
    startValidation st =
      (1, { st with writes := st.writes ++ [[0, 0, 0, 3, 0, 0x1A, 0x1A, 0]] }) := by
  simp [startValidation, buildPacket, hidWrite]

/-- One successful `getValidationData` poll: writes the read-only query,
consumes the next queued response `d` and returns `d[4]`. -/
theorem getValidationData_ok (st : Dlp) (d : List Nat) (rest : List (List Nat))
    (v : Nat) (h : st.responses = d :: rest) (hv : d[4]? = some v) :
    getValidationData st =
      (.ok v, { st with
          responses := rest,
          writes := st.writes ++ [[0, 192, 0, 2, 0, 0x1A, 0x1A]] }) := by
  simp [getValidationData, buildPacket, hidWrite, hidRead, h, hv]

/-- The validation polling loop consumes exactly the leading responses
whose byte 4 has bit 7 set, plus the first one whose bit 7 is clear, and
returns that byte; one query write per consumed response. -/
theorem validateLoopF_ok (front : List (List Nat)) :
    ∀ (fuel : Nat) (st : Dlp) (d : List Nat) (rest : List (List Nat)) (v : Nat),
      st.responses = front ++ d :: rest →
      (∀ r ∈ front, ∃ b, r[4]? = some b ∧ b >>> 7 = 1) →
      d[4]? = some v → v >>> 7 ≠ 1 →
      front.length + 1 ≤ fuel →
      validateLoopF fuel st =
        (.ok v, { st with
            responses := rest,
            writes := st.writes ++
              List.replicate (front.length + 1) [0, 192, 0, 2, 0, 0x1A, 0x1A] }) := by
  induction front with
  | nil =>
    intro fuel st d rest v hresp hfront hv hbit hfuel
    obtain ⟨f, rfl⟩ : ∃ f, fuel = f + 1 := ⟨fuel - 1, by omega⟩
    simp only [validateLoopF]
    rw [getValidationData_ok st d rest v (by simpa using hresp) hv]
    simp [hbit]
  | cons r front ih =>
    intro fuel st d rest v hresp hfront hv hbit hfuel
    obtain ⟨f, rfl⟩ : ∃ f, fuel = f + 1 := ⟨fuel - 1, by omega⟩
    obtain ⟨b, hb4, hb7⟩ := hfront r (List.mem_cons_self r front)
    simp only [validateLoopF]
    rw [getValidationData_ok st r (front ++ d :: rest) b (by simpa using hresp) hb4]
    simp only [hb7, if_pos]
    rw [ih f { st with
          responses := front ++ d :: rest,
          writes := st.writes ++ [[0, 192, 0, 2, 0, 0x1A, 0x1A]] }
        d rest v rfl (fun x hx => hfront x (List.mem_cons_of_mem r hx)) hv hbit
        (by simp at hfuel ⊢; omega)]
    simp [List.replicate_succ, List.append_assoc]

/-- C7: `validateSequence` first sends the start-validation command (one
write, no read), then polls `getValidationData` once per leading response
whose validation byte has bit 7 set plus once for the first response whose
bit 7 is clear, returning that byte: with `front.length + 1` polls it
consumes exactly that many responses and performs exactly that many query
writes after the start write. -/
theorem validateSequence_polls_until_clear (st : Dlp) (front : List (List Nat))
    (d : List Nat) (rest : List (List Nat)) (v : Nat)
    (hresp : st.responses = front ++ d :: rest)
    (hfront : ∀ r ∈ front, ∃ b, r[4]? = some b ∧ b >>> 7 = 1)
    (hv : d[4]? = some v) (hbit : v >>> 7 ≠ 1) :
    validateSequence st =
      (.ok v, { st with
          responses := rest,
          writes := st.writes ++
            ([0, 0, 0, 3, 0, 0x1A, 0x1A, 0] ::
              List.replicate (front.length + 1) [0, 192, 0, 2, 0, 0x1A, 0x1A]) }) := by
  unfold validateSequence
  rw [startValidation_ok]
  rw [validateLoopF_ok front _
      { st with writes := st.writes ++ [[0, 0, 0, 3, 0, 0x1A, 0x1A, 0]] }
      d rest v (by simpa using hresp)
      hfront hv hbit (by simp [hresp])]
  simp [List.append_assoc]

/-- C7 witness: with queued validation bytes 0x81, 0x81, 0x00, the
handshake performs exactly 3 polls (3 reads, consuming the whole queue)
and returns 0x00. -/
theorem validateSequence_polls_until_clear_witness :
    validateSequence (mkDlp [[0, 0, 0, 0, 0x81], [0, 0, 0, 0, 0x81], [0, 0, 0, 0, 0x00]]) =
      (.ok 0, { mkDlp [] with
          writes := [[0, 0, 0, 3, 0, 0x1A, 0x1A, 0],
            [0, 192, 0, 2, 0, 0x1A, 0x1A],
            [0, 192, 0, 2, 0, 0x1A, 0x1A],
            [0, 192, 0, 2, 0, 0x1A, 0x1A]] }) := by
  have h := validateSequence_polls_until_clear
    (mkDlp [[0, 0, 0, 0, 0x81], [0, 0, 0, 0, 0x81], [0, 0, 0, 0, 0x00]])
    [[0, 0, 0, 0, 0x81], [0, 0, 0, 0, 0x81]] [0, 0, 0, 0, 0x00] [] 0
    rfl
    (by
      intro r hr
      simp only [List.mem_cons, List.not_mem_nil, or_false] at hr
      rcases hr with rfl | rfl
      · exact ⟨0x81, rfl, rfl⟩
      · exact ⟨0x81, rfl, rfl⟩)
    rfl (by decide)
  simpa [List.replicate] using h

end DLPC350
